import Mathlib

/-!
Shallow embedding of `src/provider/common_lld.go` (terraform-provider-zabbix,
package `provider`): the generic CRUD layer for Zabbix low-level discovery
(LLD) rules, and proofs of the specified properties.

Go strings are modelled as `List Char`; Go's in-place mutation of the
terraform `ResourceData` record is modelled by explicit state passing, each
handler returning the new record together with an optional error string.
The Zabbix API client (a collaborator reached through the provider meta
handle `m`) is modelled as a record of functions supplied by the caller.
-/

namespace Provider

/-- Go strings, modelled as lists of characters. -/
abbrev Str := List Char

/-- The separator used by `strings.Join(pstrarr, "\n")` and
`strings.Split(params, "\n")` in the Go source. -/
def nl : Char := '\n'

/-- `zabbix.Preprocessor` (wire form): `Params` is the single joined string.
Field `Type` of the Go struct is written `Type_` because `Type` is a Lean
keyword. -/
structure Preprocessor where
  Type_ : Str
  Params : Str
  ErrorHandler : Str
  ErrorHandlerParams : Str
deriving DecidableEq, Repr, Inhabited

/-- `zabbix.LLDRule`: the API request/response object. -/
structure LLDRule where
  ItemID : Str
  HostID : Str
  Key : Str
  Name : Str
  Delay : Str
  Preprocessors : List Preprocessor
deriving DecidableEq, Repr, Inhabited

/-- One nested `preprocessor` block of the terraform configuration record
(schema keys `type`, `params`, `error_handler`, `error_handler_params`);
`params` is the local list-of-strings representation. -/
structure PreprocessorBlock where
  type_ : Str
  params : List Str
  error_handler : Str
  error_handler_params : Str
deriving DecidableEq, Repr, Inhabited

/-- The terraform `ResourceData` record as used by this file: the resource
identifier (`d.Id()` / `d.SetId`) plus the schema fields read and written by
the handlers. -/
structure ResourceData where
  id : Str
  hostid : Str
  key : Str
  name : Str
  delay : Str
  preprocessor : List PreprocessorBlock
deriving DecidableEq, Repr, Inhabited

/-- The declared type of a schema field. -/
inductive SchemaType where
  | string
  | list
deriving DecidableEq, Repr

/-- One `schema.Schema` descriptor: the flags that matter for the verified
properties (`Required`, `Optional`, `ForceNew`, `Computed`, `Default`). -/
structure SchemaField where
  typ : SchemaType
  required : Bool
  optional : Bool
  forceNew : Bool
  computed : Bool
  defaultVal : Option Str
deriving DecidableEq, Repr

/-- `lldCommonSchema`: common schema elements for all lld types.
`hostid` is Required and ForceNew; `delay` is Optional with default
`"3600"`; `key` and `name` are Required. -/
def lldCommonSchema : List (Str × SchemaField) :=
  [ ( "hostid".toList, ⟨SchemaType.string, true, false, true, false, none⟩),
    ( "delay".toList, ⟨SchemaType.string, false, true, false, false, some "3600".toList⟩),
    ( "key".toList, ⟨SchemaType.string, true, false, false, false, none⟩),
    ( "name".toList, ⟨SchemaType.string, true, false, false, false, none⟩)]

/-- A value of a `zabbix.Params` query map entry: a list of strings
(`[]string{...}`) or a single string. -/
inductive ParamValue where
  | strs : List Str → ParamValue
  | str : Str → ParamValue
deriving DecidableEq, Repr

/-- `zabbix.Params`, modelled as an association list to keep the literal
query keys of the source observable. -/
abbrev Params := List (Str × ParamValue)

/-- `LLDHandler` used as pre-submit hook (`c`): in Go it mutates the rule
object in place; here it returns the updated rule. -/
abbrev PreHook := ResourceData → LLDRule → LLDRule

/-- `LLDHandler` used as post-read hook (`r`): in Go it mutates the
resource data in place; here it returns the updated record. -/
abbrev PostHook := ResourceData → LLDRule → ResourceData

/-- The Zabbix API client collaborator (`*zabbix.API`): each call either
succeeds or returns an error string. `LLDsCreate` mutates its batch in
place (assigning `ItemID`s); here it returns the mutated batch. -/
structure API where
  LLDsCreate : List LLDRule → Except Str (List LLDRule)
  LLDsUpdate : List LLDRule → Option Str
  LLDsGet : Params → Except Str (List LLDRule)
  LLDDeleteByIds : List Str → Option Str

/-- Body of the loop of `lldGeneratePreprocessors` for one block `i`:
reads `type`, `params`, `error_handler`, `error_handler_params` under
`preprocessor.i.` and joins the params with the newline separator
(`strings.Join(pstrarr, "\n")`). -/
def lldGenerateOne (b : PreprocessorBlock) : Preprocessor :=
  ⟨b.type_, List.intercalate [nl] b.params, b.error_handler, b.error_handler_params⟩

/-- `lldGeneratePreprocessors`: the Go loop runs `i` from `0` to
`preprocessor.#` and builds entry `i` from block `i`; positionally this is
a map over the block list. -/
def lldGeneratePreprocessors (d : ResourceData) : List Preprocessor :=
  d.preprocessor.map lldGenerateOne

/-- `buildLLDObject`: builds the base lld object from the configuration;
`ItemID` is left at its zero value (empty string). -/
def buildLLDObject (d : ResourceData) : LLDRule :=
  ⟨[], d.hostid, d.key, d.name, d.delay, lldGeneratePreprocessors d⟩

/-- Body of the loop of `flattenlldPreprocessors` for one preprocessor:
splits the wire params string on the newline separator
(`strings.Split(lld.Preprocessors[i].Params, "\n")`). -/
def flattenOne (p : Preprocessor) : PreprocessorBlock :=
  ⟨p.Type_, p.Params.splitOn nl, p.ErrorHandler, p.ErrorHandlerParams⟩

/-- `flattenlldPreprocessors`: generate the terraform flattened form of the
lld preprocessors, one output record per preprocessor, in order. -/
def flattenlldPreprocessors (lld : LLDRule) : List PreprocessorBlock :=
  lld.Preprocessors.map flattenOne

/-- The query parameters `resourceLLDRead` passes to `api.LLDsGet`:
`zabbix.Params{"lldids": []string{d.Id()}, "selectPreprocessing": "extend"}`. -/
def lldReadParams (id : Str) : Params :=
  [ ( "lldids".toList, ParamValue.strs [id]),
    ( "selectPreprocessing".toList, ParamValue.str "extend".toList)]

/-- Handling of the `LLDsGet` result inside `resourceLLDRead`: API error →
propagate; zero rules → `d.SetId("")` and success; more than one rule →
`errors.New("multiple llds found")`; exactly one → set all fields from the
rule, then run the post-read hook. -/
def lldReadHandle (d : ResourceData) (res : Except Str (List LLDRule)) (r : PostHook) :
    ResourceData × Option Str :=
  match res with
  | Except.error e => (d, some e)
  | Except.ok llds =>
    if llds.length < 1 then ({ d with id := [] }, none)
    else if llds.length > 1 then (d, some "multiple llds found".toList)
    else
      let lld := llds.headI
      let d2 : ResourceData :=
        { id := lld.ItemID, hostid := lld.HostID, key := lld.Key,
          name := lld.Name, delay := lld.Delay,
          preprocessor := flattenlldPreprocessors lld }
      (r d2 lld, none)

/-- `resourceLLDRead`: look up the lld by the current identifier with
preprocessing details requested inline, then handle the result. -/
def resourceLLDRead (d : ResourceData) (api : API) (r : PostHook) :
    ResourceData × Option Str :=
  lldReadHandle d (api.LLDsGet (lldReadParams d.id)) r

/-- `resourceLLDCreate`: build the object, run the pre-submit hook, submit
a single-element batch to `LLDsCreate`; on error return it (identifier
untouched); on success store `llds[0].ItemID` and re-read. -/
def resourceLLDCreate (d : ResourceData) (api : API) (c : PreHook) (r : PostHook) :
    ResourceData × Option Str :=
  let lld := c d (buildLLDObject d)
  match api.LLDsCreate [lld] with
  | Except.error e => (d, some e)
  | Except.ok llds => resourceLLDRead { d with id := llds.headI.ItemID } api r

/-- `resourceLLDUpdate`: build the object, set `ItemID` from the current
identifier, run the pre-submit hook, submit a single-element batch to
`LLDsUpdate`; on error return it, otherwise re-read. -/
def resourceLLDUpdate (d : ResourceData) (api : API) (c : PreHook) (r : PostHook) :
    ResourceData × Option Str :=
  let lld := c d { buildLLDObject d with ItemID := d.id }
  match api.LLDsUpdate [lld] with
  | some e => (d, some e)
  | none => resourceLLDRead d api r

/-- `resourceLLDDelete`: delete by the single current identifier and return
the API result verbatim. -/
def resourceLLDDelete (d : ResourceData) (api : API) : Option Str :=
  api.LLDDeleteByIds [d.id]

/-! ## C1: build/flatten round trip -/

/-- A valid configuration (every schema constraint holds) whose single
preprocessor block has an empty `params` list: `params` is Optional, so the
empty list passes validation, and it vacuously contains no newline. -/
def cfgEmptyParams : ResourceData :=
  ⟨ "1".toList, "10".toList, "k".toList, "n".toList, "3600".toList,
    [⟨ "5".toList, [], "0".toList, []⟩]⟩

/-- C1 fails as stated: `cfgEmptyParams` satisfies the claim's proviso (no
parameter string contains the newline separator), yet flattening the built
rule yields `params = [""]` where the configuration had `params = []`. -/
theorem flatten_build_roundtrip_counterexample :
    (∀ b ∈ cfgEmptyParams.preprocessor, ∀ s ∈ b.params, nl ∉ s) ∧
    flattenlldPreprocessors (buildLLDObject cfgEmptyParams) ≠ cfgEmptyParams.preprocessor := by
  constructor
  · decide
  · decide

/-- C1 (amended): for every configuration in which each preprocessor's
`params` list is non-empty and no parameter string contains the newline
separator, flattening the built rule reproduces the preprocessor list
exactly — same order and, per entry, same type, params, error_handler and
error_handler_params. -/
theorem flatten_build_roundtrip (d : ResourceData)
    (h : ∀ b ∈ d.preprocessor, b.params ≠ [] ∧ ∀ s ∈ b.params, nl ∉ s) :
    flattenlldPreprocessors (buildLLDObject d) = d.preprocessor := by
  unfold flattenlldPreprocessors buildLLDObject lldGeneratePreprocessors
  rw [List.map_map]
  conv_rhs => rw [← List.map_id d.preprocessor]
  refine List.map_congr_left ?_
  intro b hb
  obtain ⟨hne, hnl⟩ := h b hb
  show flattenOne (lldGenerateOne b) = b
  unfold flattenOne lldGenerateOne
  simp only
  rw [List.splitOn_intercalate b.params nl hnl hne]

/-- The configuration of the claim's worked example: one preprocessor
`{type: "5", params: ["a", "b"], error_handler: "0", error_handler_params: ""}`. -/
def cfgExample : ResourceData :=
  ⟨ "1".toList, "10".toList, "k".toList, "n".toList, "3600".toList,
    [⟨ "5".toList, [ "a".toList, "b".toList], "0".toList, []⟩]⟩

/-- Witness for C1 at the claim's example: the entry builds to the single
wire string `"a\nb"` and flattens back to `params = ["a", "b"]` unchanged. -/
theorem flatten_build_roundtrip_witness :
    (buildLLDObject cfgExample).Preprocessors
      = [⟨ "5".toList, "a\nb".toList, "0".toList, []⟩] ∧
    flattenlldPreprocessors (buildLLDObject cfgExample) = cfgExample.preprocessor :=
  ⟨by decide, flatten_build_roundtrip cfgExample (by decide)⟩

/-! ## C2, C3: read result-count policy -/

/-- C2: if the remote query succeeds with zero matching rules,
`resourceLLDRead` clears the local identifier, changes no other field, and
returns no error. -/
theorem read_zero_clears_id (d : ResourceData) (api : API) (r : PostHook)
    (h : api.LLDsGet (lldReadParams d.id) = Except.ok []) :
    resourceLLDRead d api r = ({ d with id := [] }, none) := by
  unfold resourceLLDRead
  rw [h]
  rfl

/-- A post-read hook that does nothing, for concrete instantiations. -/
def idHook : PostHook := fun d _ => d

/-- An API client whose lookup succeeds with zero rules. -/
def apiGetNone : API :=
  ⟨fun _ => Except.error [], fun _ => none, fun _ => Except.ok [], fun _ => none⟩

/-- A concrete resource record for instantiating the CRUD theorems. -/
def dGone : ResourceData :=
  ⟨ "7".toList, "10".toList, "k".toList, "n".toList, "3600".toList, []⟩

/-- Witness for C2 at a concrete record and API client. -/
theorem read_zero_clears_id_witness :
    resourceLLDRead dGone apiGetNone idHook = ({ dGone with id := [] }, none) :=
  read_zero_clears_id dGone apiGetNone idHook rfl

/-- C3: if the remote query succeeds with two or more matching rules,
`resourceLLDRead` returns the consistency error `"multiple llds found"` and
returns the local record unchanged. -/
theorem read_multiple_is_error (d : ResourceData) (api : API) (r : PostHook)
    (llds : List LLDRule) (h : api.LLDsGet (lldReadParams d.id) = Except.ok llds)
    (h2 : llds.length > 1) :
    resourceLLDRead d api r = (d, some "multiple llds found".toList) := by
  unfold resourceLLDRead
  rw [h]
  unfold lldReadHandle
  simp only [Nat.lt_irrefl, if_neg (by omega : ¬llds.length < 1), if_pos h2]

/-- A fixed remote rule used to build multi-result responses. -/
def rule0 : LLDRule :=
  ⟨ "7".toList, "10".toList, "k".toList, "n".toList, "3600".toList, []⟩

/-- An API client whose lookup succeeds with two rules. -/
def apiGetTwo : API :=
  ⟨fun _ => Except.error [], fun _ => none, fun _ => Except.ok [rule0, rule0], fun _ => none⟩

/-- Witness for C3 at a concrete record and a two-element response. -/
theorem read_multiple_is_error_witness :
    resourceLLDRead dGone apiGetTwo idHook = (dGone, some "multiple llds found".toList) :=
  read_multiple_is_error dGone apiGetTwo idHook [rule0, rule0] rfl (by decide)

/-! ## C6: read query parameters -/

/-- C6 fails as stated: the identifier-list query key used by the code is
`"lldids"`, not `"ids"` — the query built for identifier `"1"` is not the
`"ids"`-keyed query the claim describes. -/
theorem read_params_counterexample :
    lldReadParams "1".toList
      ≠ [ ( "ids".toList, ParamValue.strs [ "1".toList]),
          ( "selectPreprocessing".toList, ParamValue.str "extend".toList)] := by
  decide

/-- C6 (amended): every read queries the remote system by the current local
identifier with exactly the parameters
`{"lldids": [<identifier>], "selectPreprocessing": "extend"}`. -/
theorem read_params_exact (d : ResourceData) (api : API) (r : PostHook) :
    resourceLLDRead d api r
      = lldReadHandle d
          (api.LLDsGet
            [ ( "lldids".toList, ParamValue.strs [d.id]),
              ( "selectPreprocessing".toList, ParamValue.str "extend".toList)]) r :=
  rfl

/-! ## C7: delete -/

/-- C7: delete submits exactly the single-element list holding the current
identifier and returns the API result verbatim. -/
theorem delete_exact_id (d : ResourceData) (api : API) :
    resourceLLDDelete d api = api.LLDDeleteByIds [d.id] :=
  rfl

/-! ## C4, C5: create/update sequencing -/

/-- C4: create builds the object from the configuration, applies the
pre-submit hook, and submits a single-element batch; on error the error is
returned and the record (its identifier included) is untouched; on success
the server-assigned identifier of the batch's single element is stored and
read is invoked to resynchronize. -/
theorem create_sequencing (d : ResourceData) (api : API) (c : PreHook) (r : PostHook) :
    (∀ e, api.LLDsCreate [c d (buildLLDObject d)] = Except.error e →
      resourceLLDCreate d api c r = (d, some e)) ∧
    (∀ llds, api.LLDsCreate [c d (buildLLDObject d)] = Except.ok llds →
      resourceLLDCreate d api c r
        = resourceLLDRead { d with id := llds.headI.ItemID } api r) := by
  constructor
  · intro e h
    simp only [resourceLLDCreate]
    rw [h]
  · intro llds h
    simp only [resourceLLDCreate]
    rw [h]

/-- A pre-submit hook that does nothing, for concrete instantiations. -/
def idPre : PreHook := fun _ lld => lld

/-- An API client whose create call fails. -/
def apiCreateErr : API :=
  ⟨fun _ => Except.error "boom".toList, fun _ => none, fun _ => Except.ok [], fun _ => none⟩

/-- The rule returned by the successful create call, carrying the
server-assigned identifier `"42"`. -/
def ruleNew : LLDRule :=
  ⟨ "42".toList, "10".toList, "k".toList, "n".toList, "3600".toList, []⟩

/-- An API client whose create call succeeds with the one-element batch
`[ruleNew]`. -/
def apiCreateOk : API :=
  ⟨fun _ => Except.ok [ruleNew], fun _ => none, fun _ => Except.ok [], fun _ => none⟩

/-- Witness for C4 on both branches: a failing create and a succeeding one. -/
theorem create_sequencing_witness :
    resourceLLDCreate dGone apiCreateErr idPre idHook = (dGone, some "boom".toList) ∧
    resourceLLDCreate dGone apiCreateOk idPre idHook
      = resourceLLDRead { dGone with id := ([ruleNew].headI).ItemID } apiCreateOk idHook :=
  ⟨(create_sequencing dGone apiCreateErr idPre idHook).1 "boom".toList rfl,
   (create_sequencing dGone apiCreateOk idPre idHook).2 [ruleNew] rfl⟩

/-- C5: update builds the object, sets its `ItemID` from the current local
identifier, applies the pre-submit hook, and submits a single-element
batch; an error is returned with the record untouched and without invoking
read; on success read is invoked. -/
theorem update_sequencing (d : ResourceData) (api : API) (c : PreHook) (r : PostHook) :
    (∀ e, api.LLDsUpdate [c d { buildLLDObject d with ItemID := d.id }] = some e →
      resourceLLDUpdate d api c r = (d, some e)) ∧
    (api.LLDsUpdate [c d { buildLLDObject d with ItemID := d.id }] = none →
      resourceLLDUpdate d api c r = resourceLLDRead d api r) := by
  constructor
  · intro e h
    simp only [resourceLLDUpdate]
    rw [h]
  · intro h
    simp only [resourceLLDUpdate]
    rw [h]

/-- An API client whose update call fails. -/
def apiUpdateErr : API :=
  ⟨fun _ => Except.ok [], fun _ => some "boom".toList, fun _ => Except.ok [], fun _ => none⟩

/-- An API client whose update call succeeds. -/
def apiUpdateOk : API :=
  ⟨fun _ => Except.ok [], fun _ => none, fun _ => Except.ok [], fun _ => none⟩

/-- Witness for C5 on both branches: a failing update and a succeeding one. -/
theorem update_sequencing_witness :
    resourceLLDUpdate dGone apiUpdateErr idPre idHook = (dGone, some "boom".toList) ∧
    resourceLLDUpdate dGone apiUpdateOk idPre idHook
      = resourceLLDRead dGone apiUpdateOk idHook :=
  ⟨(update_sequencing dGone apiUpdateErr idPre idHook).1 "boom".toList rfl,
   (update_sequencing dGone apiUpdateOk idPre idHook).2 rfl⟩

/-! ## C8: host id immutability -/

/-- C8: the `hostid` field is declared ForceNew in the common schema (a
change forces destroy/recreate, so update is never invoked with a mutated
host id), while the update path itself just copies the record's host id
into the payload — the guarantee lives in the schema, not the
orchestrator. -/
theorem hostid_forcenew_schema :
    (lldCommonSchema.lookup "hostid".toList).map SchemaField.forceNew = some true ∧
    ∀ d : ResourceData, (buildLLDObject d).HostID = d.hostid :=
  ⟨by decide, fun _ => rfl⟩

/-! ## C9: flattened params lists are never empty -/

/-- C9: for every rule, every record produced by `flattenlldPreprocessors`
has a non-empty `params` list — splitting a string never yields the empty
list. -/
theorem flatten_params_nonempty (lld : LLDRule) (b : PreprocessorBlock)
    (h : b ∈ flattenlldPreprocessors lld) : b.params ≠ [] := by
  unfold flattenlldPreprocessors at h
  rw [List.mem_map] at h
  obtain ⟨p, hp, rfl⟩ := h
  show (p.Params.splitOn nl) ≠ []
  unfold List.splitOn
  exact List.splitOnP_ne_nil _ _

/-- A configuration whose single preprocessor block has an empty `params`
list, for exercising the empty-wire-string case. -/
def cfgEmptyWire : ResourceData :=
  ⟨ [], "10".toList, "k".toList, "n".toList, "3600".toList,
    [⟨ "5".toList, [], "0".toList, []⟩]⟩

/-- Witness for C9: a preprocessor whose params list was empty at build
time goes over the wire as the empty string and flattens back to the
one-element list `[""]`, which is non-empty. -/
theorem flatten_params_nonempty_witness :
    (buildLLDObject cfgEmptyWire).Preprocessors.headI.Params = [] ∧
    flattenlldPreprocessors (buildLLDObject cfgEmptyWire)
      = [⟨ "5".toList, [[]], "0".toList, []⟩] ∧
    (⟨ "5".toList, [[]], "0".toList, []⟩ : PreprocessorBlock).params ≠ [] :=
  ⟨by decide, by decide,
   flatten_params_nonempty (buildLLDObject cfgEmptyWire)
     ⟨ "5".toList, [[]], "0".toList, []⟩ (by decide)⟩

/-! ## C10: count and position preservation -/

/-- C10: build produces exactly one preprocessor object per configuration
block, entry `i` built from block `i`; flatten produces exactly one output
record per preprocessor, output `i` derived from preprocessor `i`. -/
theorem build_flatten_positional (d : ResourceData) (lld : LLDRule) :
    (lldGeneratePreprocessors d).length = d.preprocessor.length ∧
    (flattenlldPreprocessors lld).length = lld.Preprocessors.length ∧
    (∀ i, i < d.preprocessor.length →
      (lldGeneratePreprocessors d).getD i default
        = lldGenerateOne (d.preprocessor.getD i default)) ∧
    (∀ i, i < lld.Preprocessors.length →
      (flattenlldPreprocessors lld).getD i default
        = flattenOne (lld.Preprocessors.getD i default)) := by
  refine ⟨by simp [lldGeneratePreprocessors], by simp [flattenlldPreprocessors],
    fun i hi => ?_, fun i hi => ?_⟩
  · have hi2 : i < (lldGeneratePreprocessors d).length := by
      simpa [lldGeneratePreprocessors] using hi
    rw [List.getD_eq_getElem _ _ hi2, List.getD_eq_getElem _ _ hi]
    simp [lldGeneratePreprocessors]
  · have hi2 : i < (flattenlldPreprocessors lld).length := by
      simpa [flattenlldPreprocessors] using hi
    rw [List.getD_eq_getElem _ _ hi2, List.getD_eq_getElem _ _ hi]
    simp [flattenlldPreprocessors]

/-- A configuration with one preprocessor block, for the C10 witness. -/
def dPos : ResourceData :=
  ⟨ [], "10".toList, "k".toList, "n".toList, "3600".toList,
    [⟨ "5".toList, [ "a".toList], "0".toList, []⟩]⟩

/-- A remote rule with one preprocessor, for the C10 witness. -/
def lldPos : LLDRule :=
  ⟨ "7".toList, "10".toList, "k".toList, "n".toList, "3600".toList,
    [⟨ "5".toList, "a".toList, "0".toList, []⟩]⟩

/-- Witness for C10 at one-element inputs and position `0`. -/
theorem build_flatten_positional_witness :
    0 < dPos.preprocessor.length ∧
    (lldGeneratePreprocessors dPos).getD 0 default
      = lldGenerateOne (dPos.preprocessor.getD 0 default) ∧
    (flattenlldPreprocessors lldPos).getD 0 default
      = flattenOne (lldPos.Preprocessors.getD 0 default) :=
  ⟨by decide,
   (build_flatten_positional dPos lldPos).2.2.1 0 (by decide),
   (build_flatten_positional dPos lldPos).2.2.2 0 (by decide)⟩

end Provider
